import Mathlib

/-!
# Verification of the resilient retrieval layer of `newstiger`

Shallow embedding of the retrieval core of `src/scripts/telegram_bot.py`
(class `GDELTNewsBot`): cache-key derivation (`_get_cache_key`), the two-tier
cache (`_get_from_cache` / `_save_to_cache`), the rate limiter (`_rate_limit`),
the retrieval entry points (`fetch_news`, `fetch_trending`) and the formatting
helpers (`_format_articles`, `_format_summary`, `_format_trending`,
`_generate_mock_trending`, `_format_date`).

Machine integers are modelled as `Nat` with explicit `% 2 ^ 32` where 32-bit
wrap-around matters (the MD5 core); clock readings (`time.time()`,
`datetime.now()`) are modelled as an explicit `Int` number of seconds threaded
through the state; network I/O and the random module are modelled as explicit
oracles passed in as arguments.
-/

namespace NewsTiger

/-! ## MD5 (used by `_get_cache_key` via `hashlib.md5(...).hexdigest()`)

A direct executable implementation of RFC 1321 MD5 over byte lists, with
32-bit words as `Nat` reduced `% 2 ^ 32`.  `md5hex` mirrors
`hashlib.md5(key_string.encode()).hexdigest()`. -/

/-- The 32-bit mask `2 ^ 32 - 1`. -/
def mask32 : Nat := 4294967295

/-- Bitwise NOT on a 32-bit word represented as `Nat`. -/
def not32 (x : Nat) : Nat := mask32 ^^^ x

/-- Left-rotation of a 32-bit word by `n` places. -/
def rotl32 (x n : Nat) : Nat :=
  ((x <<< n) ||| (x >>> (32 - n))) % 4294967296

/-- The 64 MD5 round constants `K[i] = floor(2^32 * |sin(i+1)|)` (RFC 1321). -/
def md5K : List Nat :=
  [0xd76aa478, 0xe8c7b756, 0x242070db, 0xc1bdceee,
   0xf57c0faf, 0x4787c62a, 0xa8304613, 0xfd469501,
   0x698098d8, 0x8b44f7af, 0xffff5bb1, 0x895cd7be,
   0x6b901122, 0xfd987193, 0xa679438e, 0x49b40821,
   0xf61e2562, 0xc040b340, 0x265e5a51, 0xe9b6c7aa,
   0xd62f105d, 0x02441453, 0xd8a1e681, 0xe7d3fbc8,
   0x21e1cde6, 0xc33707d6, 0xf4d50d87, 0x455a14ed,
   0xa9e3e905, 0xfcefa3f8, 0x676f02d9, 0x8d2a4c8a,
   0xfffa3942, 0x8771f681, 0x6d9d6122, 0xfde5380c,
   0xa4beea44, 0x4bdecfa9, 0xf6bb4b60, 0xbebfbc70,
   0x289b7ec6, 0xeaa127fa, 0xd4ef3085, 0x04881d05,
   0xd9d4d039, 0xe6db99e5, 0x1fa27cf8, 0xc4ac5665,
   0xf4292244, 0x432aff97, 0xab9423a7, 0xfc93a039,
   0x655b59c3, 0x8f0ccc92, 0xffeff47d, 0x85845dd1,
   0x6fa87e4f, 0xfe2ce6e0, 0xa3014314, 0x4e0811a1,
   0xf7537e82, 0xbd3af235, 0x2ad7d2bb, 0xeb86d391]

/-- The 64 MD5 per-round left-rotation amounts (RFC 1321). -/
def md5S : List Nat :=
  [7, 12, 17, 22, 7, 12, 17, 22, 7, 12, 17, 22, 7, 12, 17, 22,
   5, 9, 14, 20, 5, 9, 14, 20, 5, 9, 14, 20, 5, 9, 14, 20,
   4, 11, 16, 23, 4, 11, 16, 23, 4, 11, 16, 23, 4, 11, 16, 23,
   6, 10, 15, 21, 6, 10, 15, 21, 6, 10, 15, 21, 6, 10, 15, 21]

/-- The MD5 nonlinear function of round `i` applied to words `b`, `c`, `d`. -/
def md5F (i b c d : Nat) : Nat :=
  if i < 16 then (b &&& c) ||| (not32 b &&& d)
  else if i < 32 then (d &&& b) ||| (not32 d &&& c)
  else if i < 48 then b ^^^ c ^^^ d
  else c ^^^ (b ||| not32 d)

/-- The MD5 message-word index used in round `i`. -/
def md5G (i : Nat) : Nat :=
  if i < 16 then i
  else if i < 32 then (5 * i + 1) % 16
  else if i < 48 then (3 * i + 5) % 16
  else (7 * i) % 16

/-- Little-endian byte decomposition of `n` into `count` bytes. -/
def leBytes (n count : Nat) : List Nat :=
  (List.range count).map (fun i => (n >>> (8 * i)) % 256)

/-- The little-endian 32-bit word starting at byte offset `4 * i` of `chunk`. -/
def leWord (chunk : List Nat) (i : Nat) : Nat :=
  chunk.getD (4 * i) 0 + 256 * chunk.getD (4 * i + 1) 0 +
    65536 * chunk.getD (4 * i + 2) 0 + 16777216 * chunk.getD (4 * i + 3) 0

/-- MD5 padding: append `0x80`, zeros to 56 mod 64, then the 64-bit
little-endian bit length. -/
def md5Pad (msg : List Nat) : List Nat :=
  let len := msg.length
  let k := (56 + 64 - ((len + 1) % 64)) % 64
  msg ++ [0x80] ++ List.replicate k 0 ++ leBytes ((8 * len) % 2 ^ 64) 8

/-- Split a byte list into 64-byte chunks, with structural fuel so the
definition reduces inside the kernel. -/
def chunks64Fuel : Nat → List Nat → List (List Nat)
  | 0, _ => []
  | _, [] => []
  | fuel + 1, b :: rest => ((b :: rest).take 64) :: chunks64Fuel fuel ((b :: rest).drop 64)

/-- Split a byte list into 64-byte chunks. -/
def chunks64 (l : List Nat) : List (List Nat) := chunks64Fuel l.length l

/-- Process one 64-byte chunk, updating the four 32-bit state words. -/
def md5ProcessChunk (st : Nat × Nat × Nat × Nat) (chunk : List Nat) :
    Nat × Nat × Nat × Nat :=
  let r := (List.range 64).foldl
    (fun (s : Nat × Nat × Nat × Nat) i =>
      let (a, b, c, d) := s
      let f := (md5F i b c d + a + md5K.getD i 0 + leWord chunk (md5G i)) % 4294967296
      (d, (b + rotl32 f (md5S.getD i 0)) % 4294967296, b, c))
    st
  ((st.1 + r.1) % 4294967296, (st.2.1 + r.2.1) % 4294967296,
   (st.2.2.1 + r.2.2.1) % 4294967296, (st.2.2.2 + r.2.2.2) % 4294967296)

/-- The 16-byte MD5 digest of a byte list. -/
def md5Digest (msg : List Nat) : List Nat :=
  let r := (chunks64 (md5Pad msg)).foldl md5ProcessChunk
    (0x67452301, 0xefcdab89, 0x98badcfe, 0x10325476)
  leBytes r.1 4 ++ leBytes r.2.1 4 ++ leBytes r.2.2.1 4 ++ leBytes r.2.2.2 4

/-- UTF-8 encoding of a single code point (mirrors Python `str.encode()`). -/
def utf8Char (n : Nat) : List Nat :=
  if n < 0x80 then [n]
  else if n < 0x800 then
    [0xC0 ||| (n >>> 6), 0x80 ||| (n &&& 0x3F)]
  else if n < 0x10000 then
    [0xE0 ||| (n >>> 12), 0x80 ||| ((n >>> 6) &&& 0x3F), 0x80 ||| (n &&& 0x3F)]
  else
    [0xF0 ||| (n >>> 18), 0x80 ||| ((n >>> 12) &&& 0x3F),
     0x80 ||| ((n >>> 6) &&& 0x3F), 0x80 ||| (n &&& 0x3F)]

/-- UTF-8 encoding of a string as a byte list. -/
def utf8Encode (s : String) : List Nat :=
  (s.data.map (fun c => utf8Char c.toNat)).flatten

/-- Lower-case hexadecimal digit for `n < 16`. -/
def hexDigit (n : Nat) : Char :=
  if n < 10 then Char.ofNat (48 + n) else Char.ofNat (87 + n)

/-- Two-character lower-case hexadecimal rendering of a byte. -/
def byteHex (b : Nat) : List Char := [hexDigit (b / 16), hexDigit (b % 16)]

/-- `hashlib.md5(s.encode()).hexdigest()`: the 32-character lower-case
hexadecimal MD5 digest of the UTF-8 encoding of `s`. -/
def md5hex (s : String) : String :=
  ⟨((md5Digest (utf8Encode s)).map byteHex).flatten⟩

/-! ## `_get_cache_key` (telegram_bot.py lines 99-102) -/

/-- Python string interpolation of an optional value: `f"{country}"` renders
`None` as the text `"None"` and a string as itself. -/
def pyOptStr : Option String → String
  | none => "None"
  | some s => s

/-- The pre-hash key string of `_get_cache_key`:
`key_string = f"{endpoint_type}_{query}_{country}"` (line 101).  No
normalization of any component is performed. -/
def cacheKeyString (query : String) (country : Option String)
    (endpointType : String) : String :=
  endpointType ++ "_" ++ query ++ "_" ++ pyOptStr country

/-- `_get_cache_key(query, country=None, endpoint_type='news')` (lines 99-102):
the MD5 hex digest of the raw interpolated key string. -/
def getCacheKey (query : String) (country : Option String)
    (endpointType : String := "news") : String :=
  md5hex (cacheKeyString query country endpointType)

/-! ## Bot state and the two-tier cache (telegram_bot.py lines 70-154)

Clock readings (`time.time()` for the memory tier, `datetime.now()` for the
disk tier and the rate limiter) are modelled as one `Int` number of seconds
passed in as `now`.  The cache payload type is a type parameter `α`: the bot
stores formatted news dicts, trending dicts and translation strings in the
same cache, keyed by fingerprints of different categories. -/

/-- `self.memory_cache_timeout = 300` (line 75). -/
def memoryCacheTimeout : Int := 300

/-- `self.cache_duration = 3600` (line 73). -/
def cacheDuration : Int := 3600

/-- `self.min_request_interval = 2` (line 79). -/
def minRequestInterval : Int := 2

/-- One on-disk cache file `cache/<key>.json` (lines 145-149): the JSON object
`{'cached_at': ..., 'expires_in': ..., 'data': ...}`.  Note that
`_get_from_cache` never reads `expires_in` back; freshness on read is judged
against `max_age or self.cache_duration` only. -/
structure DiskEntry (α : Type) where
  cachedAt : Int
  expiresIn : Int
  data : α
deriving DecidableEq

/-- The `self.stats` counters touched by the retrieval layer (lines 82-87). -/
structure Stats where
  apiCalls : Nat
  cacheHits : Nat
  errors : Nat
deriving DecidableEq

/-- The mutable state of `GDELTNewsBot` used by the retrieval layer:
`self.memory_cache` (key ↦ `(time.time(), data)` pair, line 74), the disk
cache directory (key ↦ parsed cache file), `self.last_request_time`
(line 78) and `self.stats`. -/
structure BotState (α : Type) where
  memoryCache : String → Option (Int × α)
  diskCache : String → Option (DiskEntry α)
  lastRequestTime : Int
  stats : Stats

/-- Python `or` on an optional integer argument with a default: `None` and
`0` are falsy and select the default (`max_age or self.cache_duration`,
line 123; `cache_duration or self.cache_duration`, line 147). -/
def pyOr (v : Option Int) (dflt : Int) : Int :=
  match v with
  | some m => if m = 0 then dflt else m
  | none => dflt

/-- `_get_from_cache(cache_key, max_age=None)` (lines 104-135).  The memory
tier is consulted first: a fresh entry (younger than
`memory_cache_timeout`) is returned and counted as a hit; an expired memory
entry is merely skipped — the code has no `del`, so the stale pair stays in
`self.memory_cache`.  The disk tier is then consulted: a fresh file (age
strictly below `max_age or cache_duration`) is returned, write-through into
the memory tier; an expired file is unlinked and the lookup misses.  Disk
read errors are caught and degrade to a miss; here disk entries are modelled
as well-formed.  Returns the payload (or `none`) and the updated state. -/
def getFromCache {α : Type} (st : BotState α) (key : String) (maxAge : Option Int)
    (now : Int) : Option α × BotState α :=
  let diskLookup : Option α × BotState α :=
    match st.diskCache key with
    | some e =>
      let age := now - e.cachedAt
      if age < pyOr maxAge cacheDuration then
        (some e.data,
         { st with
             memoryCache := fun k => if k = key then some (now, e.data) else st.memoryCache k,
             stats := { st.stats with cacheHits := st.stats.cacheHits + 1 } })
      else
        (none, { st with diskCache := fun k => if k = key then none else st.diskCache k })
    | none => (none, st)
  match st.memoryCache key with
  | some (cachedTime, dta) =>
    if now - cachedTime < memoryCacheTimeout then
      (some dta, { st with stats := { st.stats with cacheHits := st.stats.cacheHits + 1 } })
    else diskLookup
  | none => diskLookup

/-- `_save_to_cache(cache_key, data, cache_duration=None)` (lines 137-154):
writes the memory tier unconditionally, then attempts the disk write; a disk
I/O failure (`diskOk = false`) is caught and logged, leaving the in-memory
copy in place.  The stored `expires_in` is `cache_duration or
self.cache_duration`. -/
def saveToCache {α : Type} (st : BotState α) (key : String) (dta : α)
    (duration : Option Int) (diskOk : Bool) (now : Int) : BotState α :=
  let st' := { st with
    memoryCache := fun k => if k = key then some (now, dta) else st.memoryCache k }
  if diskOk then
    { st' with
        diskCache := fun k =>
          if k = key then some ⟨now, pyOr duration cacheDuration, dta⟩ else st'.diskCache k }
  else st'

/-- `_rate_limit()` (lines 89-97): sleeps until `min_request_interval` seconds
have passed since `self.last_request_time`, then stores the post-sleep clock
reading.  Returns the slept duration and the updated state. -/
def rateLimit {α : Type} (st : BotState α) (now : Int) : Int × BotState α :=
  let timeSinceLast := now - st.lastRequestTime
  let s := if timeSinceLast < minRequestInterval then minRequestInterval - timeSinceLast else 0
  (s, { st with lastRequestTime := now + s })

/-! ## Formatting helpers (telegram_bot.py lines 386-487) -/

/-- `self.site_url` (line 47). -/
def siteUrl : String := "https://yusdesign.github.io/newstiger"

/-- `_format_date(date_str)` (lines 471-487): slices a GDELT `YYYYMMDDhhmmss`
string into `YYYY-MM-DD hh:mm` (or `YYYY-MM-DD` when shorter than 12
characters); anything shorter than 8 characters is `'Unknown'`.  The
`try/except` in the source is dead for pure slicing, which cannot raise. -/
def formatDate (s : String) : String :=
  if s.length < 8 then "Unknown"
  else
    let year := s.take 4
    let month := (s.drop 4).take 2
    let day := (s.drop 6).take 2
    if 12 ≤ s.length then
      let hour := (s.drop 8).take 2
      let minute := (s.drop 10).take 2
      year ++ "-" ++ month ++ "-" ++ day ++ " " ++ hour ++ ":" ++ minute
    else
      year ++ "-" ++ month ++ "-" ++ day

/-- One raw GDELT article object as read from the upstream JSON, restricted to
the keys the bot accesses; a `none` field models a missing key. -/
structure RawArticle where
  title : Option String
  url : Option String
  domain : Option String
  seendate : Option String
  sourcecountry : Option String
  language : Option String
  content : Option String
  themes : Option (List String)
deriving DecidableEq

/-- One raw point of a GDELT `timelinevol` response. -/
structure TimelinePoint where
  date : Option String
  value : Option Int
deriving DecidableEq

/-- A parsed upstream JSON document, restricted to the keys the bot accesses
(`articles`, `summary`, `timeline`); a `none` field models a missing key. -/
structure RawData where
  articles : Option (List RawArticle)
  summary : Option String
  timeline : Option (List TimelinePoint)
deriving DecidableEq

/-- One formatted article dict as built by `_format_articles` /
`_format_summary`.  The summary variant carries no `language` key, hence
`language : Option String`. -/
structure Article where
  title : String
  url : String
  source : String
  date : String
  country : String
  language : Option String
  summary : String
  themes : List String
deriving DecidableEq

/-- The dict returned by `_format_articles` and `_format_summary` (and by a
news cache hit or a GitHub Pages snapshot, which reuse the same shape):
`{'query', 'country', 'timestamp', 'total', 'articles', 'source'}`. -/
structure Formatted where
  query : String
  country : Option String
  timestamp : String
  total : Nat
  articles : List Article
  source : String
deriving DecidableEq

/-- One entry of the loop body of `_format_articles` (lines 390-400),
with the Python `dict.get` defaults. -/
def formatArticle (a : RawArticle) : Article :=
  { title := a.title.getD "No title"
    url := a.url.getD "#"
    source := a.domain.getD "Unknown"
    date := formatDate (a.seendate.getD "")
    country := a.sourcecountry.getD "Unknown"
    language := some (a.language.getD "Unknown")
    summary := match a.content with
      | some c => if c = "" then "" else c.take 200 ++ "..."
      | none => ""
    themes := (a.themes.getD []).take 3 }

/-- `_format_articles(raw_data, query, country=None)` (lines 386-409): the
first 10 articles formatted, under `source: 'GDELT API'`.  `nowIso` stands
for `datetime.now().isoformat()`. -/
def formatArticles (raw : RawData) (query : String) (country : Option String)
    (nowIso : String) : Formatted :=
  let arts := ((raw.articles.getD []).take 10).map formatArticle
  { query := query, country := country, timestamp := nowIso,
    total := arts.length, articles := arts, source := "GDELT API" }

/-- `_format_summary(raw_data, query, country=None)` (lines 411-435): a single
pseudo-article when the response has a `summary` key, under
`source: 'GDELT Summary'`.  `nowFmt` stands for
`datetime.now().strftime('%Y-%m-%d %H:%M')`. -/
def formatSummary (raw : RawData) (query : String) (country : Option String)
    (nowIso nowFmt : String) : Formatted :=
  let arts : List Article :=
    match raw.summary with
    | some _ =>
      [{ title := "Summary for: " ++ query
         url := siteUrl
         source := "GDELT Summary"
         date := nowFmt
         country := country.getD "Global"
         language := none
         summary := raw.summary.getD "No summary available"
         themes := [] }]
    | none => []
  { query := query, country := country, timestamp := nowIso,
    total := arts.length, articles := arts, source := "GDELT Summary" }

/-- One formatted trending point. -/
structure TrendPoint where
  date : String
  value : Int
deriving DecidableEq

/-- The dict returned by `_format_trending` / `_generate_mock_trending`. -/
structure TrendingResult where
  timestamp : String
  trends : List TrendPoint
  source : String
deriving DecidableEq

/-- `_format_trending(raw_data)` (lines 437-451): the first 15 timeline points,
under `source: 'GDELT API'`. -/
def formatTrending (raw : RawData) (nowIso : String) : TrendingResult :=
  { timestamp := nowIso
    trends := ((raw.timeline.getD []).take 15).map (fun item =>
      { date := formatDate (item.date.getD ""), value := item.value.getD 0 })
    source := "GDELT API" }

/-- `_generate_mock_trending()` (lines 453-469): ten synthetic points under
`source: 'Mock Data (API Unavailable)'`.  `fmtHour i` stands for
`(now - timedelta(hours=i)).strftime('%Y%m%d%H')` and `rnd i` for the i-th
draw of `random.randint(-20, 20)`. -/
def generateMockTrending (nowIso : String) (fmtHour : Nat → String)
    (rnd : Nat → Int) : TrendingResult :=
  { timestamp := nowIso
    trends := (List.range 10).map (fun i =>
      { date := fmtHour i, value := 1000 - 80 * (i : Int) + rnd i })
    source := "Mock Data (API Unavailable)" }

/-! ## Endpoint configurations (telegram_bot.py lines 49-54 and 171-202) -/

/-- `self.gdelt_endpoints[0]` and `[1]` (lines 51-52). -/
def gdeltDocEndpoint : String := "https://api.gdeltproject.org/api/v2/doc/doc"

/-- `self.gdelt_endpoints[2]` (line 53). -/
def gdeltSummaryEndpoint : String := "https://api.gdeltproject.org/api/v2/summary/summary"

/-- One `endpoint_configs` entry: a URL and a query-parameter set. -/
structure EndpointConfig where
  url : String
  params : List (String × String)
deriving DecidableEq

/-- The `endpoint_configs` list of `fetch_news` (lines 172-202): two parameter
variants of the doc endpoint, then the summary endpoint. -/
def endpointConfigs (fullQuery : String) (maxRecords : Nat) : List EndpointConfig :=
  [{ url := gdeltDocEndpoint
     params := [("query", fullQuery), ("mode", "artlist"), ("format", "json"),
                ("maxrecords", toString maxRecords), ("sort", "date"), ("timespan", "24h")] },
   { url := gdeltDocEndpoint
     params := [("query", fullQuery), ("mode", "artlist"), ("format", "json"),
                ("maxrecords", toString maxRecords), ("sort", "relevance")] },
   { url := gdeltSummaryEndpoint
     params := [("query", fullQuery), ("mode", "summary"), ("format", "json")] }]

/-- Python's `pat in hay` substring test on strings
(`'summary' in config['url']`, line 225). -/
def strContainsSub (hay pat : String) : Bool :=
  hay.data.tails.any (fun t => pat.data.isPrefixOf t)

/-- The outcome of one `requests.get` call: a response with a status code and
(for responses whose body `response.json()` would be asked to parse) an
optional parse result — `none` models a `.json()` that raises — or one of the
exceptions `fetch_news` catches (`Timeout`, `ConnectionError`, any other
`Exception` raised by the request itself). -/
inductive HttpResult where
  | resp (status : Nat) (body : Option RawData)
  | timeout
  | connError
  | exn
deriving DecidableEq

/-- The environment effects of one `fetch_news` run — random draws, response
latencies and disk-write outcomes — as oracles indexed by attempt number and
config index.  Bounds from the source: `interCfg ∈ [1, 3]`
(`random.uniform(1, 3)`, line 253), `back429 ∈ [1, 5]` (line 237),
`interAtt ∈ [5, 10]` (line 257); `callDur ≥ 0` is the wall-clock duration of
the HTTP call itself (0-15 s given the `timeout=15`).  `diskWriteOk a i` is
the outcome of the best-effort disk half of the `_save_to_cache` call issued
after a live success at (attempt `a`, config `i`): `false` models a disk I/O
error, which lines 153-154 catch and log, leaving only the in-memory copy. -/
structure Rng where
  callDur : Nat → Nat → Int
  interCfg : Nat → Nat → Int
  back429 : Nat → Nat → Int
  interAtt : Nat → Int
  diskWriteOk : Nat → Nat → Bool

/-- Observable events of one `fetch_news` run, in order: the single
`_rate_limit()` call (with its slept duration), each outbound upstream HTTP
call (attempt number, config index, response latency), the inter-config
sleep `time.sleep(random.uniform(1, 3))`, the in-attempt 429 backoff sleep,
the between-attempt backoff sleep, each `_save_to_cache` call, and the final
GitHub Pages snapshot fetch (hit or miss). -/
inductive Ev where
  | rateLimitWait (s : Int)
  | httpCall (attempt cfg : Nat) (dur : Int)
  | interCfgSleep (d : Int)
  | backoff429 (w : Int)
  | interAttemptSleep (w : Int)
  | cacheSaveEv (key : String)
  | ghFetchEv (hit : Bool)
deriving DecidableEq

/-- The fixed per-call context of one `fetch_news` invocation. -/
structure FetchCtx where
  query : String
  country : Option String
  maxRecords : Nat
  nowIso : String
  nowFmt : String
  resp : Nat → Nat → HttpResult
  rng : Rng
  gh : Option Formatted
  cacheKey : String
  fullQuery : String

/-- Builds the `FetchCtx` of `fetch_news(query, country, max_records, retry)`
from its arguments and oracles: the cache key of lines 160 and the
`full_query` of lines 167-169 (`f"{query} sourcecountry:{country}"` when a
country filter is present). -/
def mkFetchCtx (query : String) (country : Option String) (maxRecords : Nat)
    (nowIso nowFmt : String) (resp : Nat → Nat → HttpResult) (rng : Rng)
    (gh : Option Formatted) : FetchCtx :=
  { query := query, country := country, maxRecords := maxRecords
    nowIso := nowIso, nowFmt := nowFmt, resp := resp, rng := rng, gh := gh
    cacheKey := getCacheKey query country "news"
    fullQuery := match country with
      | some c => query ++ " sourcecountry:" ++ c
      | none => query }

/-- The configs of the current invocation together with their position, as
iterated by `for config in endpoint_configs` with our index bookkeeping. -/
def endpointConfigsEnum (ctx : FetchCtx) : List (Nat × EndpointConfig) :=
  (endpointConfigs ctx.fullQuery ctx.maxRecords).enum

/-- `self.stats['api_calls'] += 1` (line 219) — executed only when
`requests.get` returned a response. -/
def bumpApiCalls {α : Type} (st : BotState α) : BotState α :=
  { st with stats := { st.stats with apiCalls := st.stats.apiCalls + 1 } }

/-- What one endpoint config yields on the live path: the formatted result if
the call returned HTTP 200 with parseable JSON and the formatted dict has a
non-empty `articles` list (the `if formatted and formatted.get('articles')`
guard, line 230), otherwise `none`. -/
def liveOutcome (ctx : FetchCtx) (a i : Nat) (cfg : EndpointConfig) : Option Formatted :=
  match ctx.resp a i with
  | HttpResult.resp status body =>
    if status = 200 then
      match body with
      | some raw =>
        let f := if strContainsSub cfg.url "summary" then
            formatSummary raw ctx.query ctx.country ctx.nowIso ctx.nowFmt
          else formatArticles raw ctx.query ctx.country ctx.nowIso
        if f.articles.isEmpty then none else some f
      | none => none
    else none
  | _ => none

/-- Result of one pass over the config list within one attempt. -/
inductive PassResult where
  | done (r : Formatted) (st : BotState Formatted) (t : Int) (tr : List Ev)
  | failed (st : BotState Formatted) (t : Int) (tr : List Ev)

/-- Prepends events to the trace of a `PassResult`. -/
def PassResult.consTr (evs : List Ev) : PassResult → PassResult
  | .done r st t tr => .done r st t (evs ++ tr)
  | .failed st t tr => .failed st t (evs ++ tr)

/-- The inner `for config in endpoint_configs` loop of `fetch_news`
(lines 208-253) for attempt number `a`, over the remaining (index, config)
pairs, threading the bot state and the clock `t`:

* HTTP 200 with parseable JSON: format via `_format_summary` when `'summary'`
  occurs in the config URL, else `_format_articles`; when the result has
  articles, `_save_to_cache` (default TTL, disk half best-effort with its
  outcome drawn from the `diskWriteOk` oracle) and return it
  (lines 221-234); otherwise fall through to the inter-config sleep and the
  next config.
* HTTP 429: sleep `(2 ** attempt) * 5 + random.uniform(1, 5)` and `continue`
  — to the next config of the *same* attempt, skipping only the inter-config
  sleep (lines 236-240).
* Any other status, a `.json()` that raises, `Timeout`, `ConnectionError` or
  any other exception: fall through to `time.sleep(random.uniform(1, 3))`
  and the next config (lines 242-253). -/
def runConfigs (ctx : FetchCtx) (a : Nat) :
    List (Nat × EndpointConfig) → BotState Formatted → Int → PassResult
  | [], st, t => .failed st t []
  | (i, cfg) :: rest, st, t =>
    let d := ctx.rng.callDur a i
    let callEv := Ev.httpCall a i d
    match ctx.resp a i with
    | HttpResult.resp status body =>
      let st := bumpApiCalls st
      if status = 200 then
        match body with
        | some raw =>
          let f := if strContainsSub cfg.url "summary" then
              formatSummary raw ctx.query ctx.country ctx.nowIso ctx.nowFmt
            else formatArticles raw ctx.query ctx.country ctx.nowIso
          if f.articles.isEmpty then
            let s := ctx.rng.interCfg a i
            PassResult.consTr [callEv, Ev.interCfgSleep s]
              (runConfigs ctx a rest st (t + d + s))
          else
            let st := saveToCache st ctx.cacheKey f none (ctx.rng.diskWriteOk a i) (t + d)
            .done f st (t + d) [callEv, Ev.cacheSaveEv ctx.cacheKey]
        | none =>
          let s := ctx.rng.interCfg a i
          PassResult.consTr [callEv, Ev.interCfgSleep s]
            (runConfigs ctx a rest st (t + d + s))
      else if status = 429 then
        let w := 2 ^ a * 5 + ctx.rng.back429 a i
        PassResult.consTr [callEv, Ev.backoff429 w]
          (runConfigs ctx a rest st (t + d + w))
      else
        let s := ctx.rng.interCfg a i
        PassResult.consTr [callEv, Ev.interCfgSleep s]
          (runConfigs ctx a rest st (t + d + s))
    | HttpResult.timeout =>
      let s := ctx.rng.interCfg a i
      PassResult.consTr [callEv, Ev.interCfgSleep s]
        (runConfigs ctx a rest st (t + d + s))
    | HttpResult.connError =>
      let s := ctx.rng.interCfg a i
      PassResult.consTr [callEv, Ev.interCfgSleep s]
        (runConfigs ctx a rest st (t + d + s))
    | HttpResult.exn =>
      let s := ctx.rng.interCfg a i
      PassResult.consTr [callEv, Ev.interCfgSleep s]
        (runConfigs ctx a rest st (t + d + s))

/-- The outer `for attempt in range(retry)` loop of `fetch_news`
(lines 207-259) followed by the GitHub Pages fallback (lines 261-269),
structurally recursive on the number of remaining attempts (`remaining`
attempts left, the current one being number `a`; `fetch_news` starts it with
`remaining = retry`, `a = 0`).  After a failed attempt that is not the last
(`attempt < retry - 1` ⟺ `remaining ≠ 1`), sleeps
`(2 ** attempt) * 10 + random.uniform(5, 10)` (lines 256-259).  When all
attempts are exhausted, `_fetch_from_github_pages` is consulted (modelled by
the oracle `ctx.gh`: its parsed JSON on HTTP 200, `none` on any failure);
on a miss `self.stats['errors'] += 1` and the call returns `None`
(lines 267-269). -/
def runAttempts (ctx : FetchCtx) :
    Nat → Nat → BotState Formatted → Int →
    Option Formatted × BotState Formatted × Int × List Ev
  | 0, _, st, t =>
    match ctx.gh with
    | some dta => (some dta, st, t, [Ev.ghFetchEv true])
    | none =>
      (none, { st with stats := { st.stats with errors := st.stats.errors + 1 } }, t,
       [Ev.ghFetchEv false])
  | rem + 1, a, st, t =>
    match runConfigs ctx a (endpointConfigsEnum ctx) st t with
    | .done r st' t' tr => (some r, st', t', tr)
    | .failed st' t' tr =>
      let w := if rem = 0 then 0 else 2 ^ a * 10 + ctx.rng.interAtt a
      let evs := if rem = 0 then ([] : List Ev) else [Ev.interAttemptSleep w]
      let r := runAttempts ctx rem (a + 1) st' (t' + w)
      (r.1, r.2.1, r.2.2.1, tr ++ evs ++ r.2.2.2)

/-- `fetch_news(query, country=None, max_records=5, retry=3)`
(lines 156-269): cache lookup first (default freshness, returning the cached
dict untouched on a hit); on a miss, one `_rate_limit()` call, then the
attempt/config loops, then the GitHub Pages fallback.  Returns the result
(`none` models Python `None`), the final state, the final clock and the event
trace. -/
def fetchNews (st : BotState Formatted) (query : String) (country : Option String)
    (maxRecords : Nat) (retry : Nat) (now : Int) (nowIso nowFmt : String)
    (resp : Nat → Nat → HttpResult) (rng : Rng) (gh : Option Formatted) :
    Option Formatted × BotState Formatted × Int × List Ev :=
  let ctx := mkFetchCtx query country maxRecords nowIso nowFmt resp rng gh
  match getFromCache st ctx.cacheKey none now with
  | (some c, st') => (some c, st', now, [])
  | (none, st') =>
    let (s, st'') := rateLimit st' now
    let r := runAttempts ctx retry 0 st'' (now + s)
    (r.1, r.2.1, r.2.2.1, Ev.rateLimitWait s :: r.2.2.2)

/-! ## `fetch_trending` and the `_save_to_cache` keyword bug (lines 296-332) -/

/-- The parameter names of `_save_to_cache(self, cache_key, data,
cache_duration=None)` (line 137) available for keyword binding. -/
def saveToCacheKwNames : List String := ["cache_key", "data", "cache_duration"]

/-- The `TypeError` CPython raises for a keyword argument matching no
parameter. -/
def saveKwErrMsg : String := "_save_to_cache() got an unexpected keyword argument"

/-- A call `self._save_to_cache(cache_key, data, **kwargs)` with keyword
arguments: CPython binds the two positional arguments, then raises
`TypeError` at call time — before any of the body runs — if a keyword name
matches no parameter of the signature; otherwise the body executes with
`cache_duration` taken from the keywords. -/
def saveToCacheKwCall {α : Type} (st : BotState α) (key : String) (dta : α)
    (kwargs : List (String × Int)) (now : Int) : Except String (BotState α) :=
  if kwargs.all (fun kv => saveToCacheKwNames.contains kv.1) then
    Except.ok (saveToCache st key dta (kwargs.lookup "cache_duration") true now)
  else
    Except.error saveKwErrMsg

/-- `fetch_trending(hours=24)` (lines 296-332): cache lookup under the key
`_get_cache_key('trending', str(hours), 'trending')` with `max_age=1800`; on
a miss, `_rate_limit()` then one upstream call.  On HTTP 200 with parseable
JSON the result is formatted and the write-back
`self._save_to_cache(cache_key, formatted, max_age=1800)` (line 324) is
attempted inside the `try`; any exception there — and any non-200 status or
request exception — falls through to `return self._generate_mock_trending()`
(line 332).  The request parameter dict (lines 306-313) does not influence
this control flow and is not modelled. -/
def fetchTrending (st : BotState TrendingResult) (hours : Nat) (now : Int)
    (nowIso : String) (resp : HttpResult) (fmtHour : Nat → String)
    (rnd : Nat → Int) : TrendingResult × BotState TrendingResult :=
  let cacheKey := getCacheKey "trending" (some (toString hours)) "trending"
  match getFromCache st cacheKey (some 1800) now with
  | (some c, st') => (c, st')
  | (none, st') =>
    let (s, st'') := rateLimit st' now
    match resp with
    | HttpResult.resp 200 (some raw) =>
      let formatted := formatTrending raw nowIso
      match saveToCacheKwCall st'' cacheKey formatted [("max_age", 1800)] (now + s) with
      | Except.ok st3 => (formatted, st3)
      | Except.error _ => (generateMockTrending nowIso fmtHour rnd, st'')
    | _ => (generateMockTrending nowIso fmtHour rnd, st'')

/-! ## Trace observations -/

/-- The attempt/config indices of the upstream HTTP calls of a trace,
in order. -/
def callsOf (tr : List Ev) : List (Nat × Nat) :=
  tr.filterMap (fun e => match e with
    | Ev.httpCall a c _ => some (a, c)
    | _ => none)

/-- The number of `_rate_limit()` invocations recorded in a trace. -/
def countRL (tr : List Ev) : Nat :=
  tr.countP (fun e => match e with
    | Ev.rateLimitWait _ => true
    | _ => false)

/-- The number of `_save_to_cache` invocations recorded in a trace. -/
def countSaves (tr : List Ev) : Nat :=
  tr.countP (fun e => match e with
    | Ev.cacheSaveEv _ => true
    | _ => false)

/-- The wall-clock start times of the upstream HTTP calls of a trace, given
the clock value at the start of the trace: every sleep and every call
latency advances the clock. -/
def callTimes : Int → List Ev → List Int
  | _, [] => []
  | t, Ev.rateLimitWait s :: rest => callTimes (t + s) rest
  | t, Ev.httpCall _ _ d :: rest => t :: callTimes (t + d) rest
  | t, Ev.interCfgSleep d :: rest => callTimes (t + d) rest
  | t, Ev.backoff429 w :: rest => callTimes (t + w) rest
  | t, Ev.interAttemptSleep w :: rest => callTimes (t + w) rest
  | t, Ev.cacheSaveEv _ :: rest => callTimes t rest
  | t, Ev.ghFetchEv _ :: rest => callTimes t rest

/-- The trace component of a `PassResult`. -/
def PassResult.trace : PassResult → List Ev
  | .done _ _ _ tr => tr
  | .failed _ _ tr => tr

/-- Whether a pass over the configs ended without a live success. -/
def PassResult.isFailed : PassResult → Bool
  | .done _ _ _ _ => false
  | .failed _ _ _ => true

/-! ## Concrete fixtures for counterexamples and witnesses

The random/latency oracle values below respect the bounds of the
corresponding `random.uniform` calls in the source (inter-config sleep in
`[1, 3]`, 429 jitter in `[1, 5]`, inter-attempt jitter in `[5, 10]`) and use
an instantaneous HTTP response. -/

/-- A fresh bot state for news payloads: empty caches,
`last_request_time = 0`, zeroed stats (mirrors `__init__`). -/
def st0 : BotState Formatted :=
  { memoryCache := fun _ => none, diskCache := fun _ => none,
    lastRequestTime := 0, stats := ⟨0, 0, 0⟩ }

/-- A fresh bot state for trending payloads. -/
def st0T : BotState TrendingResult :=
  { memoryCache := fun _ => none, diskCache := fun _ => none,
    lastRequestTime := 0, stats := ⟨0, 0, 0⟩ }

/-- A deterministic instance of the environment oracles: 1-second
inter-config sleeps, 1-second 429 jitter, 5-second inter-attempt jitter,
instantaneous responses, succeeding disk writes. -/
def rngC : Rng :=
  { callDur := fun _ _ => 0, interCfg := fun _ _ => 1,
    back429 := fun _ _ => 1, interAtt := fun _ => 5,
    diskWriteOk := fun _ _ => true }

/-- An upstream JSON document with a single article. -/
def raw1 : RawData :=
  { articles := some [{ title := some "T", url := some "U", domain := none,
                        seendate := none, sourcecountry := none, language := none,
                        content := none, themes := none }],
    summary := none, timeline := none }

/-- A response oracle whose first call is rate-limited (HTTP 429) and whose
subsequent calls succeed. -/
def respC4 : Nat → Nat → HttpResult
  | 0, 0 => HttpResult.resp 429 none
  | _, _ => HttpResult.resp 200 (some raw1)

/-- A response oracle that always yields HTTP 500. -/
def resp500 : Nat → Nat → HttpResult := fun _ _ => HttpResult.resp 500 none

/-- A response oracle that always times out. -/
def respTimeout : Nat → Nat → HttpResult := fun _ _ => HttpResult.timeout

/-- A response oracle that always succeeds with `raw1`. -/
def resp200 : Nat → Nat → HttpResult := fun _ _ => HttpResult.resp 200 (some raw1)

/-- A GitHub Pages snapshot document as published by the repository's
generation scripts (`fetch_news.py` / `create_fallback_data.py`), whose
`source` field is e.g. `'guardian_fallback'` — not a member of
`{cache, live, snapshot, synthetic}`. -/
def snapF : Formatted :=
  { query := "w", country := none, timestamp := "t0", total := 1,
    articles := [{ title := some "S", url := some "V", domain := none,
                   seendate := none, sourcecountry := none, language := none,
                   content := none, themes := none }].map formatArticle,
    source := "guardian_fallback" }

/-- A bot state over `Nat` payloads whose memory tier holds an entry for key
`"k"` stored at time 0, disk tier empty. -/
def stMemNat : BotState Nat :=
  { memoryCache := fun k => if k = "k" then some (0, 42) else none,
    diskCache := fun _ => none, lastRequestTime := 0, stats := ⟨0, 0, 0⟩ }

/-- A bot state over `Nat` payloads with an entry for `"k"` on both tiers,
both stored at time 0. -/
def stBothNat : BotState Nat :=
  { memoryCache := fun k => if k = "k" then some (0, 7) else none,
    diskCache := fun k => if k = "k" then some ⟨0, 3600, 9⟩ else none,
    lastRequestTime := 0, stats := ⟨0, 0, 0⟩ }

/-- The trending fingerprint of `fetch_trending(hours=24)`:
`_get_cache_key('trending', str(24), 'trending')`. -/
def trendingKey24 : String :=
  getCacheKey "trending" (some (toString (24 : Nat))) "trending"

/-- An upstream `timelinevol` JSON document with one point. -/
def rawT : RawData :=
  { articles := none, summary := none,
    timeline := some [{ date := some "2024010101", value := some 5 }] }

/-- The fetch context of a `fetch_news('w')` call against the `respC4`
oracle. -/
def ctxC4 : FetchCtx := mkFetchCtx "w" none 5 "ts" "tf" respC4 rngC none

/-- A single endpoint config used to exercise the config loop directly. -/
def cfgW0 : EndpointConfig :=
  { url := gdeltDocEndpoint
    params := [("query", "w"), ("mode", "artlist"), ("format", "json"),
               ("maxrecords", "5"), ("sort", "date"), ("timespan", "24h")] }

/-!
# Theorems

Sanity checks of the embedding first, then shared helper lemmas, then one
theorem (plus counterexample/witness where required) per claim C1-C10.
-/

/-- RFC 1321 test vector: the MD5 of the empty string. -/
theorem md5hex_empty : md5hex "" = "d41d8cd98f00b204e9800998ecf8427e" := by decide

/-- RFC 1321 test vector: the MD5 of `"abc"`. -/
theorem md5hex_abc : md5hex "abc" = "900150983cd24fb0d6963f7d28e17f72" := by decide

/-- Sanity check against CPython:
`hashlib.md5('news_AI_None'.encode()).hexdigest()`. -/
theorem getCacheKey_example :
    getCacheKey "AI" none "news" = "85ed1d6e85b8d75447e922b6cead8af2" := by decide

/-- A lookup that misses both tiers returns `None` and leaves the state
untouched. -/
theorem getFromCache_miss {α : Type} (st : BotState α) (key : String)
    (maxAge : Option Int) (now : Int)
    (hm : st.memoryCache key = none) (hd : st.diskCache key = none) :
    getFromCache st key maxAge now = (none, st) := by
  simp [getFromCache, hm, hd]

/-- `PassResult.consTr` prepends to the trace. -/
theorem trace_consTr (evs : List Ev) (p : PassResult) :
    (PassResult.consTr evs p).trace = evs ++ p.trace := by
  cases p <;> rfl

/-- The trace of a successful pass. -/
theorem trace_done (r : Formatted) (st : BotState Formatted) (t : Int) (tr : List Ev) :
    (PassResult.done r st t tr).trace = tr := rfl

/-- The trace of a failed pass. -/
theorem trace_failed (st : BotState Formatted) (t : Int) (tr : List Ev) :
    (PassResult.failed st t tr).trace = tr := rfl

/-- `countRL` is additive over concatenation. -/
theorem countRL_append (l₁ l₂ : List Ev) :
    countRL (l₁ ++ l₂) = countRL l₁ + countRL l₂ :=
  List.countP_append _ _ _

/-- `countRL` of the empty trace. -/
theorem countRL_nil : countRL [] = 0 := rfl

/-- An HTTP call is not a rate-limiter event. -/
theorem countRL_cons_httpCall (a c : Nat) (d : Int) (l : List Ev) :
    countRL (Ev.httpCall a c d :: l) = countRL l := by
  simp [countRL, List.countP_cons]

/-- An inter-config sleep is not a rate-limiter event. -/
theorem countRL_cons_interCfgSleep (d : Int) (l : List Ev) :
    countRL (Ev.interCfgSleep d :: l) = countRL l := by
  simp [countRL, List.countP_cons]

/-- A 429 backoff sleep is not a rate-limiter event. -/
theorem countRL_cons_backoff429 (w : Int) (l : List Ev) :
    countRL (Ev.backoff429 w :: l) = countRL l := by
  simp [countRL, List.countP_cons]

/-- A between-attempt sleep is not a rate-limiter event. -/
theorem countRL_cons_interAttemptSleep (w : Int) (l : List Ev) :
    countRL (Ev.interAttemptSleep w :: l) = countRL l := by
  simp [countRL, List.countP_cons]

/-- A cache save is not a rate-limiter event. -/
theorem countRL_cons_cacheSave (k : String) (l : List Ev) :
    countRL (Ev.cacheSaveEv k :: l) = countRL l := by
  simp [countRL, List.countP_cons]

/-- A GitHub Pages fetch is not a rate-limiter event. -/
theorem countRL_cons_ghFetch (b : Bool) (l : List Ev) :
    countRL (Ev.ghFetchEv b :: l) = countRL l := by
  simp [countRL, List.countP_cons]

/-- The inner config loop never invokes `_rate_limit`: its trace contains no
rate-limiter event. -/
theorem runConfigs_countRL (ctx : FetchCtx) (a : Nat) :
    ∀ (cfgs : List (Nat × EndpointConfig)) (st : BotState Formatted) (t : Int),
    countRL (runConfigs ctx a cfgs st t).trace = 0 := by
  intro cfgs
  induction cfgs with
  | nil => intro st t; rfl
  | cons head rest ih =>
    intro st t
    obtain ⟨i, cfg⟩ := head
    rcases hres : ctx.resp a i with ⟨status, body⟩ | _ | _ | _ <;>
      simp only [runConfigs, hres] <;>
      [skip;
       simp [trace_consTr, countRL_append, countRL_nil, countRL_cons_httpCall,
             countRL_cons_interCfgSleep, ih];
       simp [trace_consTr, countRL_append, countRL_nil, countRL_cons_httpCall,
             countRL_cons_interCfgSleep, ih];
       simp [trace_consTr, countRL_append, countRL_nil, countRL_cons_httpCall,
             countRL_cons_interCfgSleep, ih]]
    by_cases h200 : status = 200
    · subst h200
      rcases body with _ | raw
      · simp [trace_consTr, countRL_append, countRL_nil, countRL_cons_httpCall,
              countRL_cons_interCfgSleep, ih]
      · repeat' split
        all_goals
          simp_all [trace_consTr, trace_done, trace_failed, countRL_append, countRL_nil,
                    countRL_cons_httpCall, countRL_cons_interCfgSleep, countRL_cons_cacheSave, ih]
    · by_cases h429 : status = 429 <;>
        simp [h200, h429, trace_consTr, countRL_append, countRL_nil, countRL_cons_httpCall,
              countRL_cons_interCfgSleep, countRL_cons_backoff429, ih]

/-- The attempt loop and the GitHub Pages fallback never invoke
`_rate_limit`: their trace contains no rate-limiter event. -/
theorem runAttempts_countRL (ctx : FetchCtx) :
    ∀ (rem a : Nat) (st : BotState Formatted) (t : Int),
    countRL (runAttempts ctx rem a st t).2.2.2 = 0 := by
  intro rem
  induction rem with
  | zero =>
    intro a st t
    simp only [runAttempts]
    rcases ctx.gh with _ | d <;> rfl
  | succ rem ih =>
    intro a st t
    simp only [runAttempts]
    rcases hp : runConfigs ctx a (endpointConfigsEnum ctx) st t with ⟨r, st', t', tr⟩ | ⟨st', t', tr⟩
    · have h0 := runConfigs_countRL ctx a (endpointConfigsEnum ctx) st t
      rw [hp] at h0
      simpa [PassResult.trace] using h0
    · have h0 := runConfigs_countRL ctx a (endpointConfigsEnum ctx) st t
      rw [hp] at h0
      simp only [PassResult.trace] at h0
      rcases rem with _ | rem' <;>
        simp [countRL_append, countRL_nil, countRL_cons_interAttemptSleep, h0, ih]

/-- `PassResult.consTr` preserves the success/failure verdict. -/
theorem isFailed_consTr (evs : List Ev) (p : PassResult) :
    (PassResult.consTr evs p).isFailed = p.isFailed := by
  cases p <;> rfl

/-- When no endpoint config can yield a live success, the config loop of every
attempt ends in failure. -/
theorem runConfigs_allFail (ctx : FetchCtx) (a : Nat)
    (h : ∀ i cfg, liveOutcome ctx a i cfg = none) :
    ∀ (cfgs : List (Nat × EndpointConfig)) (st : BotState Formatted) (t : Int),
    (runConfigs ctx a cfgs st t).isFailed = true := by
  intro cfgs
  induction cfgs with
  | nil => intro st t; rfl
  | cons head rest ih =>
    intro st t
    obtain ⟨i, cfg⟩ := head
    have hio := h i cfg
    unfold liveOutcome at hio
    rcases hres : ctx.resp a i with ⟨status, body⟩ | _ | _ | _ <;>
      rw [hres] at hio <;>
      simp only [runConfigs, hres] <;>
      [skip; simp [isFailed_consTr, ih]; simp [isFailed_consTr, ih]; simp [isFailed_consTr, ih]]
    by_cases h200 : status = 200
    · subst h200
      rcases body with _ | raw
      · simp [isFailed_consTr, ih]
      · rcases hemp : (if strContainsSub cfg.url "summary" then
            formatSummary raw ctx.query ctx.country ctx.nowIso ctx.nowFmt
          else formatArticles raw ctx.query ctx.country ctx.nowIso).articles.isEmpty with _ | _
        · simp [hemp] at hio
        · simp [hemp, isFailed_consTr, ih]
    · by_cases h429 : status = 429 <;>
        simp [h200, h429, isFailed_consTr, ih]

/-- When no endpoint config can yield a live success, the retrieval loop
returns exactly what the GitHub Pages fallback provides. -/
theorem runAttempts_allFail (ctx : FetchCtx)
    (h : ∀ a i cfg, liveOutcome ctx a i cfg = none) :
    ∀ (rem a : Nat) (st : BotState Formatted) (t : Int),
    (runAttempts ctx rem a st t).1 = ctx.gh := by
  intro rem
  induction rem with
  | zero =>
    intro a st t
    rcases hgh : ctx.gh with _ | d <;> simp [runAttempts, hgh]
  | succ rem ih =>
    intro a st t
    simp only [runAttempts]
    rcases hp : runConfigs ctx a (endpointConfigsEnum ctx) st t with ⟨r, st', t', tr⟩ | ⟨st', t', tr⟩
    · have hf := runConfigs_allFail ctx a (fun i cfg => h a i cfg) (endpointConfigsEnum ctx) st t
      rw [hp] at hf
      simp [PassResult.isFailed] at hf
    · simp [ih]

/-- The first endpoint config does not use the summary endpoint. -/
theorem doc_not_summary : strContainsSub gdeltDocEndpoint "summary" = false := by decide

/-- The cache key recorded in the fetch context is the news fingerprint of
the request. -/
theorem mkFetchCtx_cacheKey (q : String) (c : Option String) (mr : Nat)
    (iso fmt : String) (resp : Nat → Nat → HttpResult) (rng : Rng)
    (gh : Option Formatted) :
    (mkFetchCtx q c mr iso fmt resp rng gh).cacheKey = getCacheKey q c "news" := rfl

/-- Claim C9 (confirmed): `_save_to_cache(fingerprint, payload, ttl)`
followed immediately by `_get_from_cache(fingerprint, maxAge)` returns
exactly the payload that was written — with zero elapsed time the memory
tier answers, whatever `maxAge` and whether or not the best-effort disk
write succeeded. -/
theorem saveToCache_getFromCache_roundtrip {α : Type} (st : BotState α) (key : String)
    (dta : α) (dur : Option Int) (diskOk : Bool) (now : Int) (maxAge : Option Int) :
    (getFromCache (saveToCache st key dta dur diskOk now) key maxAge now).1 = some dta := by
  cases diskOk <;>
    simp [getFromCache, saveToCache, memoryCacheTimeout]

/-- Claim C8 (counterexample): an expired entry found on the memory tier is
*not* removed from that tier — `_get_from_cache` has no `del`.  With key
`"k"` stored in the memory tier at time 0 and looked up at time 300 (its TTL
of 300 s exactly elapsed), the lookup reports not-found but the stale pair is
still present afterwards, refuting the claim that each tier removes its
expired entries. -/
theorem getFromCache_memory_expired_kept_cex :
    (getFromCache stMemNat "k" none 300).1 = none ∧
    (getFromCache stMemNat "k" none 300).2.memoryCache "k" = some (0, 42) := by
  exact ⟨rfl, rfl⟩

/-- Claim C8 (corrected): an entry whose TTL has elapsed is reported as
not-found on either tier; the disk tier removes the expired file
(`cache_file.unlink()`), but the memory tier leaves its expired pair in
place. -/
theorem getFromCache_expired_both_tiers {α : Type} (st : BotState α) (key : String)
    (t : Int) (d : α) (e : DiskEntry α) (now maxAge : Int)
    (hmem : st.memoryCache key = some (t, d))
    (hmexp : memoryCacheTimeout ≤ now - t)
    (hdisk : st.diskCache key = some e)
    (hdexp : pyOr (some maxAge) cacheDuration ≤ now - e.cachedAt) :
    (getFromCache st key (some maxAge) now).1 = none ∧
    (getFromCache st key (some maxAge) now).2.diskCache key = none ∧
    (getFromCache st key (some maxAge) now).2.memoryCache key = some (t, d) := by
  have h1 : ¬ (now - t < memoryCacheTimeout) := not_lt.mpr hmexp
  have h2 : ¬ (now - e.cachedAt < pyOr (some maxAge) cacheDuration) := not_lt.mpr hdexp
  simp [getFromCache, hmem, hdisk, h1, h2]

/-- Witness for C8's corrected theorem: both tiers hold `"k"` stored at time
0; at time 4000 with `maxAge = 1800` the lookup misses, the disk entry is
gone, the stale memory pair remains. -/
theorem getFromCache_expired_both_tiers_witness :
    (getFromCache stBothNat "k" (some 1800) 4000).1 = none ∧
    (getFromCache stBothNat "k" (some 1800) 4000).2.diskCache "k" = none ∧
    (getFromCache stBothNat "k" (some 1800) 4000).2.memoryCache "k" = some (0, 7) :=
  getFromCache_expired_both_tiers stBothNat "k" 0 7 ⟨0, 3600, 9⟩ 4000 1800
    (by decide) (by decide) (by decide) (by decide)

/-- Claim C3 (counterexample): `_get_cache_key` does not lower-case the
query before hashing: the queries `"AI"` and `"ai"`, which differ only in
letter case, produce different fingerprints. -/
theorem getCacheKey_case_not_normalized_cex :
    getCacheKey "AI" none "news" ≠ getCacheKey "ai" none "news" := by decide

/-- Claim C3 (corrected): `_get_cache_key` hashes the raw f-string
`f"{endpoint_type}_{query}_{country}"` with no normalization whatsoever:
queries differing in letter case, in leading whitespace, or in internal
whitespace runs, and country filters differing in letter case, all produce
different fingerprints. -/
theorem getCacheKey_no_normalization :
    getCacheKey "Climate Change" none "news" ≠ getCacheKey "climate change" none "news" ∧
    getCacheKey " ai" none "news" ≠ getCacheKey "ai" none "news" ∧
    getCacheKey "a  b" none "news" ≠ getCacheKey "a b" none "news" ∧
    getCacheKey "x" (some "ru") "news" ≠ getCacheKey "x" (some "RU") "news" := by decide

/-- Claim C7 (counterexample): the pre-hash key construction is not injective
over distinct triples: `('a', 'B_C', 'news')` and `('a_B', 'C', 'news')` are
different (query, country, category) triples whose underscore-joined key
strings — and hence MD5 fingerprints — coincide exactly. -/
theorem getCacheKey_not_injective_cex :
    getCacheKey "a" (some "B_C") "news" = getCacheKey "a_B" (some "C") "news" ∧
    (("a", some "B_C", "news") : String × Option String × String) ≠
      ("a_B", some "C", "news") := by decide

/-- Claim C7 (corrected): equal (query, countryFilter, category) triples
always produce identical fingerprints (the derivation is a pure function),
and any two triples whose underscore-joined key strings agree produce the
same fingerprint — the construction is deterministic but not injective,
since components can shift around the `'_'` separator; the category tag
does separate the bot's distinct uses of identical text, e.g. the news and
trending keys differ. -/
theorem getCacheKey_deterministic :
    (∀ (q₁ : String) (c₁ : Option String) (t₁ q₂ : String) (c₂ : Option String) (t₂ : String),
      q₁ = q₂ → c₁ = c₂ → t₁ = t₂ → getCacheKey q₁ c₁ t₁ = getCacheKey q₂ c₂ t₂) ∧
    (∀ (q₁ : String) (c₁ : Option String) (t₁ q₂ : String) (c₂ : Option String) (t₂ : String),
      cacheKeyString q₁ c₁ t₁ = cacheKeyString q₂ c₂ t₂ →
      getCacheKey q₁ c₁ t₁ = getCacheKey q₂ c₂ t₂) ∧
    getCacheKey "trending" (some "24") "trending" ≠ getCacheKey "trending" (some "24") "news" := by
  refine ⟨?_, ?_, by decide⟩
  · intro q₁ c₁ t₁ q₂ c₂ t₂ hq hc ht
    subst hq; subst hc; subst ht; rfl
  · intro q₁ c₁ t₁ q₂ c₂ t₂ hk
    unfold getCacheKey
    rw [hk]

/-- Witness for C7's corrected theorem: determinism at a concrete triple, and
the concrete key-string collision mapped through the hash. -/
theorem getCacheKey_deterministic_witness :
    getCacheKey "Russia" (some "RU") "news" = getCacheKey "Russia" (some "RU") "news" ∧
    getCacheKey "a" (some "B_C") "news" = getCacheKey "a_B" (some "C") "news" :=
  ⟨getCacheKey_deterministic.1 "Russia" (some "RU") "news" "Russia" (some "RU") "news" rfl rfl rfl,
   getCacheKey_deterministic.2.1 "a" (some "B_C") "news" "a_B" (some "C") "news" (by decide)⟩

/-- Claim C2 (counterexample): a live success of `fetch_news` carries
`source = 'GDELT API'`, which is not one of the values
`cache`/`live`/`snapshot`/`synthetic` the claim enumerates. -/
theorem fetchNews_source_value_cex :
    ((fetchNews st0 "w" none 5 3 100 "ts" "tf" resp200 rngC none).1.map Formatted.source)
      = some "GDELT API" ∧
    "GDELT API" ∉ (["cache", "live", "snapshot", "synthetic"] : List String) := by decide

/-- Claim C2 (corrected): the `source` strings the retrieval operations
actually construct are `'GDELT API'` (article lists and trending),
`'GDELT Summary'` (summary endpoint) and `'Mock Data (API Unavailable)'`
(mock trending); a cache hit returns the stored payload unchanged, a GitHub
Pages snapshot is returned verbatim with whatever `source` its file holds,
and the all-failure `fetch_news` path returns `None`, which has no source
field at all. -/
theorem source_field_values :
    ∀ (raw : RawData) (q : String) (c : Option String) (iso fmt : String)
      (fh : Nat → String) (rnd : Nat → Int),
    (formatArticles raw q c iso).source = "GDELT API" ∧
    (formatSummary raw q c iso fmt).source = "GDELT Summary" ∧
    (formatTrending raw iso).source = "GDELT API" ∧
    (generateMockTrending iso fh rnd).source = "Mock Data (API Unavailable)" := by
  intro raw q c iso fmt fh rnd
  exact ⟨rfl, rfl, rfl, rfl⟩

/-- Claim C1 (counterexample): when every upstream attempt times out and the
GitHub Pages snapshot also fails, `fetch_news` returns Python `None`
(line 269) — not a non-null synthesized placeholder. -/
theorem fetchNews_allfail_none_cex :
    (fetchNews st0 "technology" none 5 3 100 "ts" "tf" respTimeout rngC none).1 = none := by
  decide

/-- Claim C1 (corrected): `fetch_news` raises no exception (the embedding is
a total function of the oracles), and when no live attempt can succeed it
returns exactly what the GitHub Pages snapshot fetch provides — the parsed
snapshot on success, and `None` (not a synthetic placeholder; `fetch_news`
has no synthesis step) when that too fails. -/
theorem fetchNews_allFail_returns_snapshot (st : BotState Formatted) (q : String)
    (c : Option String) (mr retry : Nat) (now : Int) (iso fmt : String)
    (resp : Nat → Nat → HttpResult) (rng : Rng) (gh : Option Formatted)
    (hmem : st.memoryCache (getCacheKey q c "news") = none)
    (hdisk : st.diskCache (getCacheKey q c "news") = none)
    (hfail : ∀ a i cfg, liveOutcome (mkFetchCtx q c mr iso fmt resp rng gh) a i cfg = none) :
    (fetchNews st q c mr retry now iso fmt resp rng gh).1 = gh := by
  simp only [fetchNews, mkFetchCtx_cacheKey]
  rw [getFromCache_miss st _ none now hmem hdisk]
  simpa using runAttempts_allFail (mkFetchCtx q c mr iso fmt resp rng gh) hfail retry 0 _ _

/-- Witness for C1's corrected theorem: all attempts time out, the snapshot
succeeds, and its document is returned as-is. -/
theorem fetchNews_allFail_returns_snapshot_witness :
    (fetchNews st0 "w" none 5 3 100 "ts" "tf" respTimeout rngC (some snapF)).1 = some snapF :=
  fetchNews_allFail_returns_snapshot st0 "w" none 5 3 100 "ts" "tf" respTimeout rngC
    (some snapF) rfl rfl (fun _ _ _ => rfl)

/-- Claim C4 (counterexample): with HTTP 429 on the first call and success on
the next, the call sequence of `fetch_news` is `[(0, 0), (0, 1)]`: after the
429 backoff the controller proceeds to config 1 of the *same* attempt 0,
not to a restarted attempt cycle (which would make the second call
`(1, 0)`). -/
theorem backoff429_next_config_cex :
    respC4 0 0 = HttpResult.resp 429 none ∧
    callsOf (fetchNews st0 "w" none 5 3 100 "ts" "tf" respC4 rngC none).2.2.2
      = [(0, 0), (0, 1)] := by decide

/-- Claim C4 (corrected): on a rate-limited response (HTTP 429) the
controller sleeps `(2 ** attempt) * 5 + random.uniform(1, 5)` and then
`continue`s to the next endpoint config of the current attempt (skipping
only the inter-config sleep); a new attempt cycle starts only once all
configs of the current attempt are exhausted. -/
theorem runConfigs_429_same_attempt (ctx : FetchCtx) (a i : Nat) (cfg : EndpointConfig)
    (rest : List (Nat × EndpointConfig)) (st : BotState Formatted) (t : Int)
    (body : Option RawData) (h : ctx.resp a i = HttpResult.resp 429 body) :
    runConfigs ctx a ((i, cfg) :: rest) st t =
      PassResult.consTr
        [Ev.httpCall a i (ctx.rng.callDur a i), Ev.backoff429 (2 ^ a * 5 + ctx.rng.back429 a i)]
        (runConfigs ctx a rest (bumpApiCalls st)
          (t + ctx.rng.callDur a i + (2 ^ a * 5 + ctx.rng.back429 a i))) := by
  simp [runConfigs, h]

/-- Witness for C4's corrected theorem at the `respC4` oracle. -/
theorem runConfigs_429_same_attempt_witness :
    runConfigs ctxC4 0 ((0, cfgW0) :: []) st0 100 =
      PassResult.consTr
        [Ev.httpCall 0 0 (ctxC4.rng.callDur 0 0),
         Ev.backoff429 (2 ^ 0 * 5 + ctxC4.rng.back429 0 0)]
        (runConfigs ctxC4 0 [] (bumpApiCalls st0)
          (100 + ctxC4.rng.callDur 0 0 + (2 ^ 0 * 5 + ctxC4.rng.back429 0 0))) :=
  runConfigs_429_same_attempt ctxC4 0 0 cfgW0 [] st0 100 none (by decide)

/-- Claim C5 (counterexample): a run in which every upstream call gets HTTP
500, responses are instantaneous and the inter-config sleep draws its lower
bound of 1 s.  The nine upstream calls start at
`[100, 101, 102, 118, 119, 120, 146, 147, 148]`: the second call comes only
1 s after the first — less than `min_request_interval = 2` — and the whole
run contains a single `_rate_limit()` invocation, so consecutive calls are
not each preceded by an acquire. -/
theorem rate_limiter_spacing_cex :
    callTimes 100 (fetchNews st0 "w" none 5 3 100 "ts" "tf" resp500 rngC none).2.2.2
      = [100, 101, 102, 118, 119, 120, 146, 147, 148] ∧
    countRL (fetchNews st0 "w" none 5 3 100 "ts" "tf" resp500 rngC none).2.2.2 = 1 ∧
    (101 : Int) - 100 < minRequestInterval := by decide

/-- Claim C5 (corrected): `_rate_limit()` (which enforces the 2-second
minimum since `last_request_time`) runs exactly once per cache-missing
`fetch_news` invocation, before the attempt loop — it is not re-acquired
before each upstream call; within the invocation, consecutive calls are
separated only by the random inter-config and backoff sleeps. -/
theorem fetchNews_single_rate_limit (st : BotState Formatted) (q : String)
    (c : Option String) (mr retry : Nat) (now : Int) (iso fmt : String)
    (resp : Nat → Nat → HttpResult) (rng : Rng) (gh : Option Formatted)
    (hmem : st.memoryCache (getCacheKey q c "news") = none)
    (hdisk : st.diskCache (getCacheKey q c "news") = none) :
    ∃ s rest,
      (fetchNews st q c mr retry now iso fmt resp rng gh).2.2.2
        = Ev.rateLimitWait s :: rest ∧
      countRL rest = 0 := by
  simp only [fetchNews, mkFetchCtx_cacheKey]
  rw [getFromCache_miss st _ none now hmem hdisk]
  exact ⟨_, _, rfl, runAttempts_countRL (mkFetchCtx q c mr iso fmt resp rng gh) retry 0 _ _⟩

/-- Witness for C5's corrected theorem at the all-500 oracle. -/
theorem fetchNews_single_rate_limit_witness :
    ∃ s rest,
      (fetchNews st0 "w" none 5 3 100 "ts" "tf" resp500 rngC none).2.2.2
        = Ev.rateLimitWait s :: rest ∧
      countRL rest = 0 :=
  fetchNews_single_rate_limit st0 "w" none 5 3 100 "ts" "tf" resp500 rngC none rfl rfl

/-- Claim C6 (counterexample): when every live attempt fails and the
GitHub Pages snapshot succeeds, `fetch_news` returns the snapshot document
without any `_save_to_cache` call: a non-cache-hit result is returned that
was never written into the cache. -/
theorem fetchNews_snapshot_not_cached_cex :
    (fetchNews st0 "w" none 5 3 100 "ts" "tf" respTimeout rngC (some snapF)).1 = some snapF ∧
    countSaves (fetchNews st0 "w" none 5 3 100 "ts" "tf" respTimeout rngC (some snapF)).2.2.2
      = 0 := by decide

/-- Claim C6 (corrected): only live successes are written back: a live result
is stored under the request's fingerprint before being returned — in the
memory tier unconditionally, and on the disk tier (with the default TTL)
exactly when the best-effort disk write succeeds, a disk I/O failure being
swallowed so that only the in-memory copy remains; GitHub Pages snapshot
results are returned without a cache write, and `fetch_news` has no
synthetic path at all (hence no short-TTL synthetic entries). -/
theorem fetchNews_live_writeback (st : BotState Formatted) (q : String)
    (c : Option String) (mr retry : Nat) (now : Int) (iso fmt : String)
    (resp : Nat → Nat → HttpResult) (rng : Rng) (gh : Option Formatted) (raw : RawData)
    (hmem : st.memoryCache (getCacheKey q c "news") = none)
    (hdisk : st.diskCache (getCacheKey q c "news") = none)
    (hresp : resp 0 0 = HttpResult.resp 200 (some raw))
    (hne : (formatArticles raw q c iso).articles.isEmpty = false)
    (hr : 0 < retry) :
    (fetchNews st q c mr retry now iso fmt resp rng gh).1
      = some (formatArticles raw q c iso) ∧
    (fetchNews st q c mr retry now iso fmt resp rng gh).2.1.memoryCache (getCacheKey q c "news")
      = some ((fetchNews st q c mr retry now iso fmt resp rng gh).2.2.1,
              formatArticles raw q c iso) ∧
    (fetchNews st q c mr retry now iso fmt resp rng gh).2.1.diskCache (getCacheKey q c "news")
      = (if rng.diskWriteOk 0 0 then
           some ⟨(fetchNews st q c mr retry now iso fmt resp rng gh).2.2.1, cacheDuration,
                 formatArticles raw q c iso⟩
         else none) ∧
    (fetchNews st q c mr retry now iso fmt resp rng gh).2.2.2
      = [Ev.rateLimitWait (rateLimit st now).1, Ev.httpCall 0 0 (rng.callDur 0 0),
         Ev.cacheSaveEv (getCacheKey q c "news")] := by
  obtain ⟨r, rfl⟩ : ∃ r, retry = r + 1 := ⟨retry - 1, by omega⟩
  simp only [fetchNews, mkFetchCtx_cacheKey]
  rw [getFromCache_miss st _ none now hmem hdisk]
  cases hdw : rng.diskWriteOk 0 0 <;>
    simp [runAttempts, runConfigs, endpointConfigsEnum, endpointConfigs, List.enum,
          mkFetchCtx, hresp, doc_not_summary, hne, saveToCache, pyOr, rateLimit, hdw,
          bumpApiCalls, hdisk]

/-- Witness for C6's corrected theorem: a first-call live success is returned
and sits in the memory tier, and — the `rngC` disk write succeeding — on the
disk tier, under the news fingerprint. -/
theorem fetchNews_live_writeback_witness :
    (fetchNews st0 "q" none 5 3 100 "iso" "fmt" resp200 rngC none).1
      = some (formatArticles raw1 "q" none "iso") ∧
    (fetchNews st0 "q" none 5 3 100 "iso" "fmt" resp200 rngC none).2.1.memoryCache
        (getCacheKey "q" none "news")
      = some ((fetchNews st0 "q" none 5 3 100 "iso" "fmt" resp200 rngC none).2.2.1,
              formatArticles raw1 "q" none "iso") ∧
    (fetchNews st0 "q" none 5 3 100 "iso" "fmt" resp200 rngC none).2.1.diskCache
        (getCacheKey "q" none "news")
      = (if rngC.diskWriteOk 0 0 then
           some ⟨(fetchNews st0 "q" none 5 3 100 "iso" "fmt" resp200 rngC none).2.2.1,
                 cacheDuration, formatArticles raw1 "q" none "iso"⟩
         else none) ∧
    (fetchNews st0 "q" none 5 3 100 "iso" "fmt" resp200 rngC none).2.2.2
      = [Ev.rateLimitWait (rateLimit st0 100).1, Ev.httpCall 0 0 (rngC.callDur 0 0),
         Ev.cacheSaveEv (getCacheKey "q" none "news")] :=
  fetchNews_live_writeback st0 "q" none 5 3 100 "iso" "fmt" resp200 rngC none raw1
    rfl rfl rfl (by decide) (by decide)

/-- Claim C10 (confirmed): on a trending cache miss with an HTTP 200 JSON
response, the write-back `self._save_to_cache(cache_key, formatted,
max_age=1800)` passes the keyword `max_age`, which
`_save_to_cache(self, cache_key, data, cache_duration=None)` does not
accept; CPython raises `TypeError` at call time inside the `try`, control
falls through to `_generate_mock_trending()`, the mock data is returned and
no cache entry is written under the trending fingerprint. -/
theorem fetchTrending_kw_bug (st : BotState TrendingResult) (now : Int) (iso : String)
    (raw : RawData) (fh : Nat → String) (rnd : Nat → Int)
    (hmem : st.memoryCache trendingKey24 = none)
    (hdisk : st.diskCache trendingKey24 = none) :
    (fetchTrending st 24 now iso (HttpResult.resp 200 (some raw)) fh rnd).1
      = generateMockTrending iso fh rnd ∧
    (fetchTrending st 24 now iso (HttpResult.resp 200 (some raw)) fh rnd).2.memoryCache
        trendingKey24 = none ∧
    (fetchTrending st 24 now iso (HttpResult.resp 200 (some raw)) fh rnd).2.diskCache
        trendingKey24 = none ∧
    saveToCacheKwCall st trendingKey24 (formatTrending raw iso) [("max_age", 1800)] now
      = (Except.error saveKwErrMsg : Except String (BotState TrendingResult)) := by
  unfold trendingKey24 at hmem hdisk ⊢
  simp only [fetchTrending]
  rw [getFromCache_miss st _ (some 1800) now hmem hdisk]
  simp [saveToCacheKwCall, saveToCacheKwNames, rateLimit, hmem, hdisk]

/-- Witness for C10's theorem: a concrete trending run with a valid 200
response returns the mock data and leaves the cache empty. -/
theorem fetchTrending_kw_bug_witness :
    (fetchTrending st0T 24 100 "iso" (HttpResult.resp 200 (some rawT)) (fun _ => "h")
        (fun _ => 0)).1 = generateMockTrending "iso" (fun _ => "h") (fun _ => 0) ∧
    (fetchTrending st0T 24 100 "iso" (HttpResult.resp 200 (some rawT)) (fun _ => "h")
        (fun _ => 0)).2.memoryCache trendingKey24 = none ∧
    (fetchTrending st0T 24 100 "iso" (HttpResult.resp 200 (some rawT)) (fun _ => "h")
        (fun _ => 0)).2.diskCache trendingKey24 = none ∧
    saveToCacheKwCall st0T trendingKey24 (formatTrending rawT "iso") [("max_age", 1800)] 100
      = (Except.error saveKwErrMsg : Except String (BotState TrendingResult)) :=
  fetchTrending_kw_bug st0T 100 "iso" rawT (fun _ => "h") (fun _ => 0) rfl rfl

end NewsTiger
